import Mathlib

/-!
# Verification of `src/movie_recs_ml.py` (MkCons/SparkSample)

The repository is a single straight-line PySpark script that loads movie
ratings from a document store, splits them, trains an ALS model, evaluates
RMSE, produces four top-10 recommendation tables, writes the all-users one
back to the store, prints previews, and stops the session.

The script itself contains no branching, so we embed its `__main__` block
as an explicit list of steps (`mainScript`), each step carrying the exact
constants (strings, hyperparameters, table references) of the source.
Semantics of the delegated library operations (recommendation generation,
cold-start filtering, random splitting, overwrite writes) are modelled
explicitly where claims about them require it.
-/

namespace MovieRecsML

/-- Spark SQL scalar types used by the script (`IntegerType`, `DoubleType`,
and `FloatType`, the element type the ALS recommender produces). -/
inductive ScalarType
  | integerType
  | doubleType
  | floatType
deriving DecidableEq, Repr

/-- A `StructField(name, type)` as in the cast at lines 63-69. -/
structure StructFieldT where
  fname : String
  ftype : ScalarType
deriving DecidableEq, Repr

/-- The column types occurring in the script: scalars, and the
`ArrayType(StructType([...]))` used for the recommendations column. -/
inductive DType
  | scalar (t : ScalarType)
  | arrayOfStruct (fields : List StructFieldT)
deriving DecidableEq, Repr

/-- DataFrameWriter save modes. The script uses `.mode("overwrite")`. -/
inductive WriteMode
  | overwrite
  | append
  | ignoreIfExists
  | errorIfExists
deriving DecidableEq, Repr

/-- Names for the dataframes flowing through the script, mirroring the
Python variables (`userRecsTable` after the cast is `castUserRecsTable`,
since the Python variable `userRecs` is rebound at line 63). -/
inductive TableRef
  | rawDf
  | ratings
  | trainingTable
  | testTable
  | predictionsTable
  | userRecsTable
  | castUserRecsTable
  | movieRecsTable
  | usersTable
  | moviesTable
  | userSubsetRecsTable
  | movieSubSetRecsTable
deriving DecidableEq, Repr

/-- One step of the straight-line `__main__` block of
`src/movie_recs_ml.py`.  Each constructor records the constants the
source passes at that call site and the dataframes it consumes/produces. -/
inductive Step
  | initSparkContext (appName : String) (executorMemory : String)
  | setLogLevel (target : String) (level : String)
  | loadCollection (fmt : String) (uri : String) (result : TableRef)
  | selectColumns (source : TableRef) (cols : List String) (result : TableRef)
  | randomSplit (source : TableRef) (weights : List Rat) (seed : Option Nat)
      (out1 out2 : TableRef)
  | alsInit (maxIter : Nat) (regParam : Rat)
      (userCol itemCol ratingCol coldStartStrategy : String)
  | alsFit (trainingInput : TableRef)
  | modelTransform (source : TableRef) (result : TableRef)
  | evaluatorInit (metricName labelCol predictionCol : String)
  | evaluatorEvaluate (source : TableRef)
  | printLine (text : String)
  | recommendForAllUsers (k : Nat) (result : TableRef)
  | castRecommendations (source : TableRef) (col : String) (newType : DType)
      (result : TableRef)
  | writeCollection (source : TableRef) (fmt : String) (uri : String)
      (collection : String) (mode : WriteMode)
  | recommendForAllItems (k : Nat) (result : TableRef)
  | selectDistinctLimit (source : TableRef) (col : String) (n : Nat)
      (result : TableRef)
  | recommendForUserSubset (subset : TableRef) (k : Nat) (result : TableRef)
  | recommendForItemSubset (subset : TableRef) (k : Nat) (result : TableRef)
  | showTable (table : TableRef)
  | stopContext
deriving DecidableEq, Repr

/-- The hard-coded connection URI (line 36). -/
def appUri : String :=
  "mongodb://localhost:27017/movies.movie_ratings?readPreference=primaryPreferred"

/-- The target schema of the cast at lines 63-69:
`ArrayType(StructType([StructField('movie_id', IntegerType()), StructField('rating', DoubleType())]))`. -/
def castSchema : DType :=
  .arrayOfStruct [⟨"movie_id", .integerType⟩, ⟨"rating", .doubleType⟩]

/-- The `__main__` block of `src/movie_recs_ml.py` (lines 31-90) as a
straight-line sequence of steps. -/
def mainScript : List Step :=
  [ .initSparkContext "MovieRatings" "4g",
    .setLogLevel "org" "WARN",
    .loadCollection "com.mongodb.spark.sql" appUri .rawDf,
    .selectColumns .rawDf ["user_id", "movie_id", "rating"] .ratings,
    .randomSplit .ratings [(0.8 : Rat), (0.2 : Rat)] none
      .trainingTable .testTable,
    .alsInit 5 (0.01 : Rat) "user_id" "movie_id" "rating" "drop",
    .alsFit .trainingTable,
    .modelTransform .testTable .predictionsTable,
    .evaluatorInit "rmse" "rating" "prediction",
    .evaluatorEvaluate .predictionsTable,
    .printLine "Root-mean-square error = ",
    .recommendForAllUsers 10 .userRecsTable,
    .castRecommendations .userRecsTable "recommendations" castSchema
      .castUserRecsTable,
    .writeCollection .castUserRecsTable "com.mongodb.spark.sql.DefaultSource"
      appUri "user_recommendations" .overwrite,
    .recommendForAllItems 10 .movieRecsTable,
    .selectDistinctLimit .ratings "user_id" 3 .usersTable,
    .recommendForUserSubset .usersTable 10 .userSubsetRecsTable,
    .selectDistinctLimit .ratings "movie_id" 3 .moviesTable,
    .recommendForItemSubset .moviesTable 10 .movieSubSetRecsTable,
    .showTable .castUserRecsTable,
    .showTable .movieRecsTable,
    .showTable .userSubsetRecsTable,
    .showTable .movieSubSetRecsTable,
    .stopContext ]

/-- Is this step a write to the document store? -/
def isStoreWrite : Step → Bool
  | .writeCollection .. => true
  | _ => false

/-- Is this step a load from the document store? -/
def isLoadStep : Step → Bool
  | .loadCollection .. => true
  | _ => false

/-- Is this step the construction of the ALS estimator? -/
def isAlsInit : Step → Bool
  | .alsInit .. => true
  | _ => false

/-- Is this step one of the four recommendation-generation calls? -/
def isRecCall : Step → Bool
  | .recommendForAllUsers .. => true
  | .recommendForAllItems .. => true
  | .recommendForUserSubset .. => true
  | .recommendForItemSubset .. => true
  | _ => false

/-- Is this step one of the `show()` preview dumps? -/
def isShowStep : Step → Bool
  | .showTable .. => true
  | _ => false

/-- The single store-write step of the script (line 72). -/
def writeStep : Step :=
  .writeCollection .castUserRecsTable "com.mongodb.spark.sql.DefaultSource"
    appUri "user_recommendations" .overwrite

/-- Modelled from the spec: the save-mode semantics of the connector write
(the connector itself is an external dependency, absent from the
repository).  `overwrite` fully replaces the prior contents of the target
collection with the new rows; `append` adds the new rows to the prior
contents. -/
def applyWrite {α : Type} : WriteMode → List α → List α → List α
  | .overwrite, _, new => new
  | .append, old, new => old ++ new
  | .ignoreIfExists, old, _ => old
  | .errorIfExists, old, _ => old

/-- Modelled from the spec: the raw all-users recommendation table (before
the cast) stores predicted ratings in single-precision floating point —
the reason the script casts before writing. -/
def rawRecsSchema : DType :=
  .arrayOfStruct [⟨"movie_id", .integerType⟩, ⟨"rating", .floatType⟩]

/-- The steps the process attempts in a run in which `ok` says which
steps succeed.  The script is straight-line with no exception handling:
the first failing step is attempted (and raises), and nothing after it
runs. -/
def attempted (ok : Step → Bool) : List Step → List Step
  | [] => []
  | s :: rest => if ok s then s :: attempted ok rest else [s]

/-! ## Recommender semantics (modelled)

The four recommendation calls (lines 60, 75, 79, 82) are implemented by
the external ML library, which is not part of this repository.
Following the spec, a subject's recommendation list is obtained by
scoring every candidate not already rated with the subject, sorting by
predicted rating in descending order, and keeping the first `k`. -/

/-- Descending order on scored candidates: `a` is ranked at or above `b`
when `a`'s predicted rating is at least `b`'s. -/
def ratedAbove (a b : Int × Rat) : Prop := b.2 ≤ a.2

instance : DecidableRel ratedAbove := fun a b =>
  inferInstanceAs (Decidable (b.2 ≤ a.2))

instance : IsTotal (Int × Rat) ratedAbove := ⟨fun a b => le_total b.2 a.2⟩

instance : IsTrans (Int × Rat) ratedAbove := ⟨fun _ _ _ h1 h2 => le_trans h2 h1⟩

/-- Modelled from the spec: the top-`k` item recommendations for user
`u` — score every candidate item whose (user, item) pair is not already
rated, sort by predicted rating in descending order, keep the first
`k`. -/
def recommendItemsForUser (pred : Int → Int → Rat) (rated : List (Int × Int))
    (items : List Int) (u : Int) (k : Nat) : List (Int × Rat) :=
  (List.insertionSort ratedAbove
    ((items.filter (fun m => !(decide ((u, m) ∈ rated)))).map
      (fun m => (m, pred u m)))).take k

/-- Modelled from the spec: the top-`k` user recommendations for item
`m`, symmetric to `recommendItemsForUser`. -/
def recommendUsersForItem (pred : Int → Int → Rat) (rated : List (Int × Int))
    (users : List Int) (m : Int) (k : Nat) : List (Int × Rat) :=
  (List.insertionSort ratedAbove
    ((users.filter (fun u => !(decide ((u, m) ∈ rated)))).map
      (fun u => (u, pred u m)))).take k

/-- Modelled from the spec: `model.recommendForAllUsers(k)` (line 60). -/
def recommendForAllUsersModel (pred : Int → Int → Rat)
    (rated : List (Int × Int)) (items users : List Int) (k : Nat) :
    List (Int × List (Int × Rat)) :=
  users.map (fun u => (u, recommendItemsForUser pred rated items u k))

/-- Modelled from the spec: `model.recommendForAllItems(k)` (line 75). -/
def recommendForAllItemsModel (pred : Int → Int → Rat)
    (rated : List (Int × Int)) (users items : List Int) (k : Nat) :
    List (Int × List (Int × Rat)) :=
  items.map (fun m => (m, recommendUsersForItem pred rated users m k))

/-- Modelled from the spec: `model.recommendForUserSubset(users, k)`
(line 79) — the all-users computation restricted to the given subset. -/
def recommendForUserSubsetModel (pred : Int → Int → Rat)
    (rated : List (Int × Int)) (items subset : List Int) (k : Nat) :
    List (Int × List (Int × Rat)) :=
  subset.map (fun u => (u, recommendItemsForUser pred rated items u k))

/-- Modelled from the spec: `model.recommendForItemSubset(movies, k)`
(line 82). -/
def recommendForItemSubsetModel (pred : Int → Int → Rat)
    (rated : List (Int × Int)) (users subset : List Int) (k : Nat) :
    List (Int × List (Int × Rat)) :=
  subset.map (fun m => (m, recommendUsersForItem pred rated users m k))

/-! ## Evaluator semantics (modelled)

`model.transform(test)` and the RMSE evaluation (lines 53-57) are
library calls.  The code comment at line 47 and the spec agree that cold
start strategy "drop" removes the rows the model cannot score — those
whose user or whose item has no learned factors, i.e. never occurs in
the training data — instead of scoring them as NaN. -/

/-- A row of the (projected) ratings table: (user_id, movie_id, rating). -/
structure RatingRow where
  user_id : Int
  movie_id : Int
  rating : Rat
deriving DecidableEq, Repr

/-- The users occurring in a table. -/
def tableUsers (l : List RatingRow) : List Int := l.map (fun r => r.user_id)

/-- The items occurring in a table. -/
def tableItems (l : List RatingRow) : List Int := l.map (fun r => r.movie_id)

/-- The (user, item) pairs occurring in a table. -/
def tablePairs (l : List RatingRow) : List (Int × Int) :=
  l.map (fun r => (r.user_id, r.movie_id))

/-- Modelled from the spec: with cold-start strategy "drop", a test row
can be scored iff its user and its item each occur in the training data
(otherwise the model has no latent factors for them and the prediction
would be NaN; such rows are dropped). -/
def canScore (training : List RatingRow) (r : RatingRow) : Bool :=
  decide (r.user_id ∈ tableUsers training) &&
    decide (r.movie_id ∈ tableItems training)

/-- Modelled from the spec: `model.transform(test)` followed by the
cold-start drop — the surviving test rows paired with their
predictions. -/
def scoredRows (pred : Int → Int → Rat) (training test : List RatingRow) :
    List (RatingRow × Rat) :=
  (test.filter (canScore training)).map
    (fun r => (r, pred r.user_id r.movie_id))

/-- Modelled from the spec: the mean squared error over the scored rows
(the RMSE is its square root; kept in exact arithmetic, it enters and
leaves with exactly the same rows). -/
def msqError (scored : List (RatingRow × Rat)) : Rat :=
  ((scored.map (fun p => (p.2 - p.1.rating) ^ 2)).sum) /
    ((scored.length : Nat) : Rat)

/-! ## Splitter semantics (modelled)

`randomSplit` (line 44) is a library call: per-row pseudo-random
assignment driven by a seed, with no seed passed by the script (the
engine draws a fresh one per run).  We model the per-row draw by an
explicit seeded assignment sending a row to the training side for 8 of
every 10 seed-offset residues. -/

/-- Modelled from the spec: the seeded per-row coin for `randomSplit`
with weights [0.8, 0.2]: row `i` goes to the training side iff the
seed-and-index residue falls in the 8-of-10 acceptance window. -/
def splitAssign (seed i : Nat) : Bool :=
  decide ((seed + 3 * i) % 10 < 8)

/-- Modelled from the spec: the two tables produced by `randomSplit`,
assigning each row by its seeded coin, counting rows from index `i`. -/
def randomSplitModel {α : Type} (seed : Nat) : Nat → List α → List α × List α
  | _, [] => ([], [])
  | i, x :: xs =>
    if splitAssign seed i then
      (x :: (randomSplitModel seed (i + 1) xs).1,
        (randomSplitModel seed (i + 1) xs).2)
    else
      ((randomSplitModel seed (i + 1) xs).1,
        x :: (randomSplitModel seed (i + 1) xs).2)

theorem attempted_get? (ok : Step → Bool) :
    ∀ (l : List Step) (i : Nat), i < (attempted ok l).length →
      (attempted ok l).get? i = l.get? i := by
  intro l
  induction l with
  | nil => intro i h; simp [attempted] at h
  | cons x rest ih =>
    intro i h
    by_cases hx : ok x = true
    · simp only [attempted, hx, if_true] at h ⊢
      cases i with
      | zero => rfl
      | succ n =>
        simp only [List.get?_cons_succ]
        exact ih n (by simpa using h)
    · simp only [attempted, hx, if_false, Bool.false_eq_true] at h ⊢
      cases i with
      | zero => rfl
      | succ n => simp at h

theorem attempted_ok (ok : Step → Bool) :
    ∀ (l : List Step) (i : Nat) (s : Step),
      (attempted ok l).get? i = some s →
      i + 1 < (attempted ok l).length → ok s = true := by
  intro l
  induction l with
  | nil => intro i s h _; simp [attempted] at h
  | cons x rest ih =>
    intro i s h hlen
    by_cases hx : ok x = true
    · simp only [attempted, hx, if_true] at h hlen
      cases i with
      | zero => cases h; exact hx
      | succ n =>
        exact ih n s (by simpa using h) (by simpa using hlen)
    · simp only [attempted, hx, if_false, Bool.false_eq_true] at h hlen
      simp at hlen

/-- If `x` is the last element of the list and occurs nowhere earlier,
then `x` is attempted exactly when every earlier step succeeds. -/
theorem mem_attempted_last (ok : Step → Bool) (x : Step) :
    ∀ (l₁ : List Step), x ∉ l₁ →
      (x ∈ attempted ok (l₁ ++ [x]) ↔ ∀ s ∈ l₁, ok s = true) := by
  intro l₁
  induction l₁ with
  | nil =>
    intro _
    constructor
    · intro _ s hs; simp at hs
    · intro _
      by_cases hx : ok x = true <;> simp [attempted, hx]
  | cons a rest ih =>
    intro hnot
    have hxa : x ≠ a := fun h => hnot (h ▸ List.mem_cons_self a rest)
    have hxr : x ∉ rest := fun h => hnot (List.mem_cons_of_mem a h)
    by_cases ha : ok a = true
    · simp only [List.cons_append, attempted, ha, if_true]
      constructor
      · intro hmem s hs
        rcases List.mem_cons.mp hmem with h | h
        · exact absurd h hxa
        · rcases List.mem_cons.mp hs with rfl | hs'
          · exact ha
          · exact ((ih hxr).mp h) s hs'
      · intro hall
        exact List.mem_cons_of_mem a
          ((ih hxr).mpr (fun s hs => hall s (List.mem_cons_of_mem a hs)))
    · simp only [List.cons_append, attempted, ha, if_false, Bool.false_eq_true]
      constructor
      · intro hmem
        rcases List.mem_singleton.mp hmem with rfl
        exact absurd rfl hxa
      · intro hall
        exact absurd (hall a (List.mem_cons_self a rest)) ha

/-- C1: before persisting, the Writer casts the nested predicted-rating
field of the all-users recommendation table from single-precision to
double-precision (target schema: array of \x7bmovie_id: 32-bit integer,
rating: double\x7d), then writes that table to the collection
`user_recommendations` with write mode overwrite, whose semantics fully
replace any prior contents (not upsert/merge). -/
theorem claim_C1_cast_then_overwrite :
    mainScript.get? 12 = some (.castRecommendations .userRecsTable
      "recommendations" castSchema .castUserRecsTable) ∧
    rawRecsSchema =
      DType.arrayOfStruct [⟨"movie_id", .integerType⟩, ⟨"rating", .floatType⟩] ∧
    castSchema =
      DType.arrayOfStruct [⟨"movie_id", .integerType⟩, ⟨"rating", .doubleType⟩] ∧
    mainScript.get? 13 = some writeStep ∧
    writeStep = .writeCollection .castUserRecsTable
      "com.mongodb.spark.sql.DefaultSource" appUri "user_recommendations"
      .overwrite ∧
    (∀ (α : Type) (old new : List α),
      applyWrite WriteMode.overwrite old new = new) ∧
    (∀ (α : Type) (oldA oldB new : List α),
      applyWrite WriteMode.overwrite oldA new =
        applyWrite WriteMode.overwrite oldB new) :=
  ⟨rfl, rfl, rfl, rfl, rfl, fun _ _ _ => rfl, fun _ _ _ _ => rfl⟩

/-- C2: the Trainer builds the ALS estimator with exactly maxIter = 5,
regParam = 0.01, coldStartStrategy = "drop", userCol = user_id,
itemCol = movie_id, ratingCol = rating, and fits it on the training table
(the 0.8 part of the random split). -/
theorem claim_C2_als_hyperparameters :
    mainScript.get? 5 = some (.alsInit 5 (0.01 : Rat) "user_id" "movie_id"
      "rating" "drop") ∧
    (0.01 : Rat) = 1 / 100 ∧
    (mainScript.filter isAlsInit).length = 1 ∧
    mainScript.get? 6 = some (.alsFit .trainingTable) ∧
    mainScript.get? 4 = some (.randomSplit .ratings [(0.8 : Rat), (0.2 : Rat)]
      none .trainingTable .testTable) :=
  ⟨rfl, by norm_num, rfl, rfl, rfl⟩

/-- C7: the Data Loader reads from the hard-coded URI
`mongodb://localhost:27017/movies.movie_ratings?readPreference=primaryPreferred`
and the loaded table is immediately restricted to exactly the columns
user_id, movie_id, rating. -/
theorem claim_C7_loader_uri_and_columns :
    appUri =
      "mongodb://localhost:27017/movies.movie_ratings?readPreference=primaryPreferred" ∧
    mainScript.get? 2 = some (.loadCollection "com.mongodb.spark.sql" appUri
      .rawDf) ∧
    (mainScript.filter isLoadStep).length = 1 ∧
    mainScript.get? 3 = some (.selectColumns .rawDf
      ["user_id", "movie_id", "rating"] .ratings) :=
  ⟨rfl, rfl, rfl, rfl⟩

/-- C8 counterexample: the claim says the pipeline writes two result
tables to the document store, with every store write after the four
recommendation-generation calls; in fact the script performs exactly one
store write (line 72). -/
theorem claim_C8_counterexample :
    ¬ ((mainScript.filter isStoreWrite).length = 2 ∧
       ∀ j : Nat, Option.any isRecCall (mainScript.get? j) = true →
         j < mainScript.findIdx isStoreWrite) := by
  intro h
  obtain ⟨h2, _⟩ := h
  have h1 : (mainScript.filter isStoreWrite).length = 1 := rfl
  omega

/-- C8 amended: over a complete successful run the pipeline performs
exactly one store write — of the (cast) all-users recommendation table —
after the all-users recommendation call but before the remaining three
recommendation calls, before the four preview dumps, and before
shutdown. -/
theorem claim_C8_amended_one_write :
    (mainScript.filter isStoreWrite).length = 1 ∧
    mainScript.get? 11 = some (.recommendForAllUsers 10 .userRecsTable) ∧
    mainScript.get? 13 = some writeStep ∧
    (mainScript.drop 14).filter isRecCall =
      [.recommendForAllItems 10 .movieRecsTable,
       .recommendForUserSubset .usersTable 10 .userSubsetRecsTable,
       .recommendForItemSubset .moviesTable 10 .movieSubSetRecsTable] ∧
    (mainScript.drop 14).filter isShowStep =
      [.showTable .castUserRecsTable, .showTable .movieRecsTable,
       .showTable .userSubsetRecsTable, .showTable .movieSubSetRecsTable] ∧
    mainScript.getLast? = some Step.stopContext :=
  ⟨rfl, rfl, rfl, rfl, rfl, rfl⟩

/-- C9: the session shutdown is the final step of the script, and since
the straight-line script has no exception handling, the shutdown step is
attempted in a run exactly when every prior step completes successfully;
a fatal error in any prior step skips it. -/
theorem claim_C9_shutdown_final_and_unprotected :
    mainScript.getLast? = some Step.stopContext ∧
    (∀ ok : Step → Bool,
      (Step.stopContext ∈ attempted ok mainScript ↔
        ∀ s ∈ mainScript.dropLast, ok s = true)) := by
  refine ⟨rfl, fun ok => ?_⟩
  have hsplit : mainScript.dropLast ++ [Step.stopContext] = mainScript := rfl
  have hnot : Step.stopContext ∉ mainScript.dropLast := by simp [mainScript]
  have h := mem_attempted_last ok Step.stopContext mainScript.dropLast hnot
  rwa [hsplit] at h

/-- C9 witness: in a run where every step succeeds, the shutdown step is
attempted. -/
theorem claim_C9_witness :
    Step.stopContext ∈ attempted (fun _ => true) mainScript :=
  (claim_C9_shutdown_final_and_unprotected.2 (fun _ => true)).mpr
    (fun _ _ => rfl)

/-- C10: the destructive overwrite (index 13) comes right after the
all-users recommendation call (index 11), separated only by the Writer's
cast (index 12), and precedes the all-items call, both subset calls and
all four preview dumps; consequently, in any run that reaches a step
after index 13, the write step has already executed successfully — and
overwrite semantics discard the prior collection contents. -/
theorem claim_C10_overwrite_before_later_steps :
    mainScript.get? 11 = some (.recommendForAllUsers 10 .userRecsTable) ∧
    mainScript.get? 12 = some (.castRecommendations .userRecsTable
      "recommendations" castSchema .castUserRecsTable) ∧
    mainScript.get? 13 = some writeStep ∧
    mainScript.get? 14 = some (.recommendForAllItems 10 .movieRecsTable) ∧
    mainScript.get? 16 = some (.recommendForUserSubset .usersTable 10
      .userSubsetRecsTable) ∧
    mainScript.get? 18 = some (.recommendForItemSubset .moviesTable 10
      .movieSubSetRecsTable) ∧
    (mainScript.drop 19).take 4 =
      [.showTable .castUserRecsTable, .showTable .movieRecsTable,
       .showTable .userSubsetRecsTable, .showTable .movieSubSetRecsTable] ∧
    (∀ (ok : Step → Bool) (j : Nat), 13 < j →
      j < (attempted ok mainScript).length →
      (attempted ok mainScript).get? 13 = some writeStep ∧
      ok writeStep = true) ∧
    (∀ (α : Type) (old new : List α),
      applyWrite WriteMode.overwrite old new = new) := by
  refine ⟨rfl, rfl, rfl, rfl, rfl, rfl, rfl, ?_, fun _ _ _ => rfl⟩
  intro ok j hj hlen
  have h13len : 13 < (attempted ok mainScript).length := lt_trans hj hlen
  have h13 : (attempted ok mainScript).get? 13 = mainScript.get? 13 :=
    attempted_get? ok mainScript 13 h13len
  have hw : (attempted ok mainScript).get? 13 = some writeStep :=
    h13.trans rfl
  refine ⟨hw, ?_⟩
  exact attempted_ok ok mainScript 13 writeStep hw
    (lt_of_le_of_lt (Nat.succ_le_of_lt hj) hlen)

/-- C10 witness: in a run where every step succeeds, step index 14 is
reached and the write step at index 13 has executed successfully. -/
theorem claim_C10_witness :
    (attempted (fun _ => true) mainScript).get? 13 = some writeStep ∧
    (fun _ => true) writeStep = true :=
  claim_C10_overwrite_before_later_steps.2.2.2.2.2.2.2.1 (fun _ => true) 14
    (by decide) (by decide)

theorem not_rated_of_mem_itemsForUser (pred : Int → Int → Rat)
    (rated : List (Int × Int)) (items : List Int) (u : Int) (k : Nat)
    (m : Int) (r : Rat)
    (hmem : (m, r) ∈ recommendItemsForUser pred rated items u k) :
    (u, m) ∉ rated := by
  intro hrated
  unfold recommendItemsForUser at hmem
  have h1 := List.take_subset _ _ hmem
  rw [List.mem_insertionSort] at h1
  rcases List.mem_map.mp h1 with ⟨a, ha, heq⟩
  injection heq with e1 e2
  subst e1
  have h2 := (List.mem_filter.mp ha).2
  simp at h2
  exact h2 hrated

theorem not_rated_of_mem_usersForItem (pred : Int → Int → Rat)
    (rated : List (Int × Int)) (users : List Int) (m : Int) (k : Nat)
    (u : Int) (r : Rat)
    (hmem : (u, r) ∈ recommendUsersForItem pred rated users m k) :
    (u, m) ∉ rated := by
  intro hrated
  unfold recommendUsersForItem at hmem
  have h1 := List.take_subset _ _ hmem
  rw [List.mem_insertionSort] at h1
  rcases List.mem_map.mp h1 with ⟨a, ha, heq⟩
  injection heq with e1 e2
  subst e1
  have h2 := (List.mem_filter.mp ha).2
  simp at h2
  exact h2 hrated

/-- C3: the script requests k = 10 for the all-users table, and every
row of the modelled all-users recommendation table has at most 10
entries, sorted by predicted rating in descending order. -/
theorem claim_C3_alluser_rows_top10_sorted :
    mainScript.get? 11 = some (.recommendForAllUsers 10 .userRecsTable) ∧
    ∀ (pred : Int → Int → Rat) (rated : List (Int × Int))
      (items users : List Int) (u : Int) (recs : List (Int × Rat)),
      (u, recs) ∈ recommendForAllUsersModel pred rated items users 10 →
      recs.length ≤ 10 ∧ List.Sorted ratedAbove recs := by
  refine ⟨rfl, ?_⟩
  intro pred rated items users u recs hmem
  rcases List.mem_map.mp hmem with ⟨a, _, heq⟩
  injection heq with e1 e2
  subst e1
  subst e2
  constructor
  · unfold recommendItemsForUser
    exact List.length_take_le _ _
  · unfold recommendItemsForUser
    exact List.Pairwise.sublist (List.take_sublist _ _)
      (List.sorted_insertionSort ratedAbove _)

/-- C3 witness: a concrete all-users table (one user, two items,
constant predictions) has a row, and that row satisfies the bound and
the ordering. -/
theorem claim_C3_witness :
    (((1 : Int), recommendItemsForUser (fun _ _ => (0 : Rat)) [] [5, 6] 1 10) ∈
      recommendForAllUsersModel (fun _ _ => (0 : Rat)) [] [5, 6] [1] 10) ∧
    (recommendItemsForUser (fun _ _ => (0 : Rat)) [] [5, 6] 1 10).length ≤ 10 ∧
    List.Sorted ratedAbove
      (recommendItemsForUser (fun _ _ => (0 : Rat)) [] [5, 6] 1 10) := by
  have hmem : ((1 : Int),
      recommendItemsForUser (fun _ _ => (0 : Rat)) [] [5, 6] 1 10) ∈
      recommendForAllUsersModel (fun _ _ => (0 : Rat)) [] [5, 6] [1] 10 :=
    List.mem_map_of_mem _ (List.mem_singleton_self 1)
  exact ⟨hmem, claim_C3_alluser_rows_top10_sorted.2 _ _ _ _ _ _ hmem⟩

/-- C4: in all four modelled recommendation tables, no subject's list
contains a user/item pair already present in the rated set; the two
subset calls compute exactly the all-subjects tables restricted to the
given subset (cold-start drop plays no role here). -/
theorem claim_C4_never_already_rated :
    (∀ (pred : Int → Int → Rat) (rated : List (Int × Int))
       (items users : List Int) (k : Nat) (u : Int)
       (recs : List (Int × Rat)) (m : Int) (r : Rat),
       (u, recs) ∈ recommendForAllUsersModel pred rated items users k →
       (m, r) ∈ recs → (u, m) ∉ rated) ∧
    (∀ (pred : Int → Int → Rat) (rated : List (Int × Int))
       (users items : List Int) (k : Nat) (m : Int)
       (recs : List (Int × Rat)) (u : Int) (r : Rat),
       (m, recs) ∈ recommendForAllItemsModel pred rated users items k →
       (u, r) ∈ recs → (u, m) ∉ rated) ∧
    (∀ (pred : Int → Int → Rat) (rated : List (Int × Int))
       (items subset : List Int) (k : Nat),
       recommendForUserSubsetModel pred rated items subset k =
         recommendForAllUsersModel pred rated items subset k) ∧
    (∀ (pred : Int → Int → Rat) (rated : List (Int × Int))
       (users subset : List Int) (k : Nat),
       recommendForItemSubsetModel pred rated users subset k =
         recommendForAllItemsModel pred rated users subset k) := by
  refine ⟨?_, ?_, fun _ _ _ _ _ => rfl, fun _ _ _ _ _ => rfl⟩
  · intro pred rated items users k u recs m r hrow hmem
    rcases List.mem_map.mp hrow with ⟨a, _, heq⟩
    injection heq with e1 e2
    subst e1
    subst e2
    exact not_rated_of_mem_itemsForUser pred rated items a k m r hmem
  · intro pred rated users items k m recs u r hrow hmem
    rcases List.mem_map.mp hrow with ⟨a, _, heq⟩
    injection heq with e1 e2
    subst e1
    subst e2
    exact not_rated_of_mem_usersForItem pred rated users a k u r hmem

/-- C4 witness: with rated pair (1, 7) and items 7, 8, user 1's list in
the all-users table contains (8, 0), and the pair (1, 8) is indeed not in
the rated set. -/
theorem claim_C4_witness :
    (((1 : Int), recommendItemsForUser (fun _ _ => (0 : Rat))
        [((1 : Int), (7 : Int))] [7, 8] 1 10) ∈
      recommendForAllUsersModel (fun _ _ => (0 : Rat))
        [((1 : Int), (7 : Int))] [7, 8] [1] 10) ∧
    (((8 : Int), (0 : Rat)) ∈ recommendItemsForUser (fun _ _ => (0 : Rat))
        [((1 : Int), (7 : Int))] [7, 8] 1 10) ∧
    ((1 : Int), (8 : Int)) ∉ [((1 : Int), (7 : Int))] := by
  have hrow : ((1 : Int), recommendItemsForUser (fun _ _ => (0 : Rat))
      [((1 : Int), (7 : Int))] [7, 8] 1 10) ∈
      recommendForAllUsersModel (fun _ _ => (0 : Rat))
        [((1 : Int), (7 : Int))] [7, 8] [1] 10 :=
    List.mem_map_of_mem _ (List.mem_singleton_self 1)
  have hmem : ((8 : Int), (0 : Rat)) ∈ recommendItemsForUser
      (fun _ _ => (0 : Rat)) [((1 : Int), (7 : Int))] [7, 8] 1 10 := by
    rw [show recommendItemsForUser (fun _ _ => (0 : Rat))
        [((1 : Int), (7 : Int))] [7, 8] 1 10 = [((8 : Int), (0 : Rat))]
      from rfl]
    exact List.mem_singleton_self _
  exact ⟨hrow, hmem,
    claim_C4_never_already_rated.1 _ _ _ _ _ _ _ _ _ hrow hmem⟩

theorem scoredRows_map_fst (pred : Int → Int → Rat)
    (training test : List RatingRow) :
    (scoredRows pred training test).map Prod.fst =
      test.filter (canScore training) := by
  unfold scoredRows
  rw [List.map_map, show (Prod.fst ∘ fun r : RatingRow =>
    (r, pred r.user_id r.movie_id)) = id from rfl, List.map_id]

/-- C5 counterexample: the claim as stated says every user/item pair
present only in the test set is excluded from the RMSE computation.
With training rows (1, 10) and (2, 20), the test row (1, 20) is a pair
never seen in training, yet both its user and its item were seen, so
the drop policy keeps it and it is scored. -/
theorem claim_C5_counterexample :
    ¬ (∀ (pred : Int → Int → Rat) (training test : List RatingRow)
        (r : RatingRow), r ∈ test →
        (r.user_id, r.movie_id) ∉ tablePairs training →
        r ∉ (scoredRows pred training test).map Prod.fst) := by
  intro h
  refine h (fun _ _ => (0 : Rat)) [⟨1, 10, 5⟩, ⟨2, 20, 4⟩] [⟨1, 20, 3⟩]
    ⟨1, 20, 3⟩ (List.mem_singleton_self _) ?_ ?_
  · decide
  · rw [show (scoredRows (fun _ _ => (0 : Rat)) [⟨1, 10, 5⟩, ⟨2, 20, 4⟩]
        [⟨1, 20, 3⟩]).map Prod.fst = [(⟨1, 20, 3⟩ : RatingRow)] from rfl]
    exact List.mem_singleton_self _

/-- C5 amended: the RMSE is computed only over test rows surviving the
cold-start drop: the scored rows are exactly the test rows whose user
and item both occur in training; a test row whose user or item never
occurs in training is excluded rather than scored, and appending such a
row to the test set leaves the scored rows — and hence the squared-error
aggregate the RMSE is taken from — unchanged (in particular it is not
scored as zero or NaN). -/
theorem claim_C5_amended_cold_start_drop :
    mainScript.get? 5 = some (.alsInit 5 (0.01 : Rat) "user_id" "movie_id"
      "rating" "drop") ∧
    mainScript.get? 7 = some (.modelTransform .testTable .predictionsTable) ∧
    mainScript.get? 8 = some (.evaluatorInit "rmse" "rating" "prediction") ∧
    (∀ (pred : Int → Int → Rat) (training test : List RatingRow),
      (scoredRows pred training test).map Prod.fst =
        test.filter (canScore training)) ∧
    (∀ (pred : Int → Int → Rat) (training test : List RatingRow)
       (r : RatingRow), r ∈ test →
       (r.user_id ∉ tableUsers training ∨ r.movie_id ∉ tableItems training) →
       r ∉ (scoredRows pred training test).map Prod.fst) ∧
    (∀ (pred : Int → Int → Rat) (training test : List RatingRow)
       (r : RatingRow), canScore training r = false →
       msqError (scoredRows pred training (test ++ [r])) =
         msqError (scoredRows pred training test)) := by
  refine ⟨rfl, rfl, rfl, scoredRows_map_fst, ?_, ?_⟩
  · intro pred training test r _ hdisj hmem
    rw [scoredRows_map_fst] at hmem
    have hcs := (List.mem_filter.mp hmem).2
    simp [canScore] at hcs
    rcases hdisj with hdisj | hdisj
    · exact hdisj hcs.1
    · exact hdisj hcs.2
  · intro pred training test r hcs
    have hrows : scoredRows pred training (test ++ [r]) =
        scoredRows pred training test := by
      simp [scoredRows, List.filter_append, List.filter_cons, hcs]
    rw [hrows]

/-- C5 witness: a test row whose user (2) never occurs in the training
set is excluded from the scored rows, and appending it to a test set
leaves the squared-error aggregate unchanged. -/
theorem claim_C5_witness :
    ((2 : Int) ∉ tableUsers [⟨1, 10, 5⟩]) ∧
    ((⟨2, 10, 4⟩ : RatingRow) ∉
      (scoredRows (fun _ _ => (0 : Rat)) [⟨1, 10, 5⟩] [⟨2, 10, 4⟩]).map
        Prod.fst) ∧
    msqError (scoredRows (fun _ _ => (0 : Rat)) [⟨1, 10, 5⟩]
        ([⟨1, 10, 5⟩] ++ [⟨2, 10, 4⟩])) =
      msqError (scoredRows (fun _ _ => (0 : Rat)) [⟨1, 10, 5⟩]
        [⟨1, 10, 5⟩]) :=
  ⟨by decide,
    claim_C5_amended_cold_start_drop.2.2.2.2.1 (fun _ _ => (0 : Rat))
      [⟨1, 10, 5⟩] [⟨2, 10, 4⟩] ⟨2, 10, 4⟩ (List.mem_singleton_self _)
      (Or.inl (by decide)),
    claim_C5_amended_cold_start_drop.2.2.2.2.2 (fun _ _ => (0 : Rat))
      [⟨1, 10, 5⟩] [⟨1, 10, 5⟩] ⟨2, 10, 4⟩ (by decide)⟩

theorem randomSplitModel_cons {α : Type} (seed i : Nat) (x : α)
    (xs : List α) :
    randomSplitModel seed i (x :: xs) =
      if splitAssign seed i then
        (x :: (randomSplitModel seed (i + 1) xs).1,
          (randomSplitModel seed (i + 1) xs).2)
      else
        ((randomSplitModel seed (i + 1) xs).1,
          x :: (randomSplitModel seed (i + 1) xs).2) := rfl

theorem randomSplitModel_perm {α : Type} (seed : Nat) :
    ∀ (i : Nat) (l : List α),
      List.Perm ((randomSplitModel seed i l).1 ++ (randomSplitModel seed i l).2)
        l := by
  intro i l
  induction l generalizing i with
  | nil => simp [randomSplitModel]
  | cons x xs ih =>
    rw [randomSplitModel_cons]
    by_cases h : splitAssign seed i = true
    · rw [if_pos h]
      exact (ih (i + 1)).cons x
    · rw [if_neg h]
      exact List.perm_middle.trans ((ih (i + 1)).cons x)

theorem splitAssign_density (seed : Nat) :
    ((List.range 10).filter (fun i => splitAssign seed i)).length = 8 := by
  have hcong : ∀ i ∈ List.range 10,
      splitAssign seed i = splitAssign (seed % 10) i := by
    intro i _
    unfold splitAssign
    rw [Nat.mod_add_mod]
  rw [List.filter_congr hcong]
  set r := seed % 10 with hr
  have h10 : r < 10 := Nat.mod_lt _ (by norm_num)
  interval_cases r <;> rfl

/-- C6: the script calls `randomSplit` with weights [0.8, 0.2] and no
seed; the modelled seeded sampler always partitions the input (the two
outputs together are a permutation of it), sends rows to the training
side for exactly 8 of every 10 residues, and different per-run seeds can
produce different partitions of the same input — so two runs are not
required to agree. -/
theorem claim_C6_unseeded_random_split :
    mainScript.get? 4 = some (.randomSplit .ratings [(0.8 : Rat), (0.2 : Rat)]
      none .trainingTable .testTable) ∧
    (0.8 : Rat) = 4 / 5 ∧
    (0.2 : Rat) = 1 / 5 ∧
    (∀ (α : Type) (seed i : Nat) (l : List α),
      List.Perm ((randomSplitModel seed i l).1 ++ (randomSplitModel seed i l).2)
        l) ∧
    (∀ seed : Nat,
      ((List.range 10).filter (fun i => splitAssign seed i)).length = 8) ∧
    randomSplitModel 0 0 [10, 20, 30] ≠ randomSplitModel 2 0 [10, 20, 30] :=
  ⟨rfl, by norm_num, by norm_num,
    fun _ seed i l => randomSplitModel_perm seed i l,
    splitAssign_density, by decide⟩

end MovieRecsML

